import Mathlib

/-!
Verification of the RPi-photoframe slideshow scripts.

The repository contains four variants of one photo-frame kiosk:
`slideshow.py` (Google Drive API key + HEIC conversion), `slideshow-1.py`
(local Dropbox-synced folder, no network sync of its own), `slideshow-3.py`
(Dropbox token API with pagination) and `slideshow-4.py` (public Google
Drive scrape).  This file shallowly embeds the cache-synchronisation,
playback, crossfade and weather logic of those scripts and proves / refutes
the specification claims about them.

Network requests, the filesystem and image decoding are modelled as
explicit inputs: a sync cycle receives the remote listing it obtained (or
`none` when the request failed), an oracle saying which individual
downloads / conversions succeed, and the cache directory as a list of
file names (a directory listing has no duplicate names).
-/

namespace PhotoFrame

/-! ### `os.path.splitext` and `str.lower`

Python's `os.path.splitext(name)` splits at the last dot of the final
path component, except that a run of leading dots never starts an
extension (`".bashrc"` has no extension).  All call sites in the scripts
apply it to a bare file name, so the directory-separator handling is not
needed.  `os.path.splitext(p)[1].lower()` is the idiom used everywhere.
-/

/-- One lowercase character, as Python's `str.lower` acts on ASCII. -/
def lowerChar (c : Char) : Char := c.toLower

/-- `str.lower` on the file names appearing here (ASCII). -/
def lowerStr (s : String) : String := ⟨s.data.map lowerChar⟩

/-- Position `i` of `cs` can start an extension: it holds a dot and some
earlier character is not a dot (Python skips leading dots). -/
def isValidDot (cs : List Char) (i : Nat) : Bool :=
  cs.getD i ' ' == '.' && (cs.take i).any (fun c => c != '.')

/-- Largest extension-starting position strictly below `i`. -/
def lastValidDotBelow (cs : List Char) : Nat → Option Nat
  | 0 => none
  | i + 1 => if isValidDot cs i then some i else lastValidDotBelow cs i

/-- Largest extension-starting position of the whole name. -/
def lastValidDot (cs : List Char) : Option Nat :=
  lastValidDotBelow cs cs.length

/-- `os.path.splitext(s)[0]`. -/
def splitextStem (s : String) : String :=
  match lastValidDot s.data with
  | none => s
  | some i => ⟨s.data.take i⟩

/-- `os.path.splitext(s)[1]`. -/
def splitextExt (s : String) : String :=
  match lastValidDot s.data with
  | none => ""
  | some i => ⟨s.data.drop i⟩

/-- `os.path.splitext(s)[1].lower()`, the extension test used by every
script. -/
def extOf (s : String) : String := lowerStr (splitextExt s)


/-! ### Python dict comprehension over (fid, name) pairs

`slideshow.py` and `slideshow-3.py` build the `remote` dict keyed by name:
a duplicate key keeps its first insertion position but its value is
overwritten by the later entry. -/

/-- Insert-or-update one key/value pair, Python-dict style. -/
def updAssoc (acc : List (String × String)) (kv : String × String) :
    List (String × String) :=
  if acc.any (fun p => p.1 == kv.1) then
    acc.map (fun p => if p.1 == kv.1 then (p.1, kv.2) else p)
  else acc ++ [kv]

/-! ### slideshow.py — Google Drive API-key sync with HEIC conversion -/

namespace GDrive

/-- `SUPPORTED_EXTS` of `slideshow.py`. -/
def SUPPORTED_EXTS : List String := [".jpg", ".jpeg", ".png", ".gif", ".webp"]

/-- `HEIC_EXTS` of `slideshow.py`. -/
def HEIC_EXTS : List String := [".heic", ".heif"]

/-- `ALL_DOWNLOAD_EXTS = SUPPORTED_EXTS | HEIC_EXTS`. -/
def ALL_DOWNLOAD_EXTS : List String := SUPPORTED_EXTS ++ HEIC_EXTS

/-- `os.path.splitext(name)[1].lower() in HEIC_EXTS`. -/
def isHeicName (name : String) : Bool := HEIC_EXTS.contains (extOf name)

/-- The expected local file name of a remote entry: HEIC/HEIF names map to
`stem + ".jpg"`, everything else passes through (`sync_gdrive_folder`,
expected-local loop). -/
def expectedLocalName (name : String) : String :=
  if isHeicName name then splitextStem name ++ ".jpg" else name

/-- Outcome oracles for one sync cycle: which file-id downloads succeed
(`download_gdrive_file`), which HEIC conversions succeed
(`convert_heic_to_jpg`), and whether pillow-heif is installed
(`HEIC_SUPPORT`). -/
structure SyncEnv where
  dl : String → Bool
  conv : String → Bool
  heicSupport : Bool

/-- `remote = ...` built from the `(fid, name)` entries, dict-style. -/
def remoteDict (entries : List (String × String)) : List (String × String) :=
  entries.foldl (fun acc e => updAssoc acc (e.2, e.1)) []

/-- The expected-local name set of a listing. -/
def expectedNames (entries : List (String × String)) : List String :=
  (remoteDict entries).map (fun p => expectedLocalName p.1)

/-- One iteration of the download loop of `sync_gdrive_folder` for the
remote pair `(name, fid)`, acting on the cache directory.  A successful
download writes the raw file; for a HEIC file a successful conversion then
writes the `.jpg` and removes the raw file, while a failed conversion
leaves the raw file behind. -/
def downloadStep (env : SyncEnv) (cache : List String) (nf : String × String) :
    List String :=
  let localName := expectedLocalName nf.1
  if cache.contains localName then cache
  else if env.dl nf.2 then
    let cache1 := cache.insert nf.1
    if isHeicName nf.1 then
      if env.heicSupport && env.conv nf.1 then
        (cache1.erase nf.1).insert (splitextStem nf.1 ++ ".jpg")
      else cache1
    else cache1
  else cache

/-- The deletion loop of `sync_gdrive_folder`: every local file with a
supported extension whose name is not expected is removed. -/
def deletePass (expected : List String) (cache : List String) : List String :=
  cache.filter (fun f => !(SUPPORTED_EXTS.contains (extOf f)) || expected.contains f)

/-- `sync_gdrive_folder`.  `listing` is the result of
`fetch_gdrive_file_list` (`none` when the request failed), `cache` the
local folder contents.  Returns the success flag and the new cache. -/
def sync_gdrive_folder (env : SyncEnv) (listing : Option (List (String × String)))
    (cache : List String) : Bool × List String :=
  match listing with
  | none => (false, cache)
  | some entries =>
    if entries.isEmpty then (false, cache)
    else
      let remote := remoteDict entries
      let expected := remote.map (fun p => expectedLocalName p.1)
      let cache1 := remote.foldl (downloadStep env) cache
      (true, deletePass expected cache1)

/-- Oracle with every download and conversion succeeding. -/
def allOkEnv : SyncEnv := ⟨fun _ => true, fun _ => true, true⟩

/-- Oracle with every download failing. -/
def allFailEnv : SyncEnv := ⟨fun _ => false, fun _ => true, true⟩

end GDrive

/-! ### slideshow-3.py — Dropbox token sync with pagination -/

namespace Dropbox

/-- `SUPPORTED_EXTS` of `slideshow-3.py`. -/
def SUPPORTED_EXTS : List String := [".jpg", ".jpeg", ".png", ".gif"]

/-- One entry of a `files/list_folder` response: its name, its
`path_lower`, and whether its `.tag` is `"file"`. -/
structure Entry where
  name : String
  path_lower : String
  isFile : Bool
deriving DecidableEq, Repr

/-- One page of the listing: the entries plus the `has_more` flag. -/
structure Page where
  entries : List Entry
  hasMore : Bool
deriving DecidableEq, Repr

/-- The pagination loop of `sync_dropbox_folder`: starting from the first
page, while `has_more` holds it issues `files/list_folder/continue`; the
successive responses are `conts` (`none` is a failed request).  A failed
continuation executes `break`: the entries gathered so far are used. -/
def collectEntries (p : Page) : List (Option Page) → List Entry
  | [] => p.entries
  | c :: rest =>
    if p.hasMore then
      match c with
      | none => p.entries
      | some q => p.entries ++ collectEntries q rest
    else p.entries

/-- `remote_images`: the dict from name to `path_lower` over the entries
with tag "file" and a supported extension. -/
def remoteImages (es : List Entry) : List (String × String) :=
  es.foldl
    (fun acc e =>
      if e.isFile && SUPPORTED_EXTS.contains (extOf e.name) then
        updAssoc acc (e.name, e.path_lower)
      else acc)
    []

/-- The download loop of `sync_dropbox_folder`: each remote image absent
from the cache is fetched (`dropbox_download`, success given by the `dl`
oracle on its Dropbox path) and written on success. -/
def downloadPass (dl : String → Bool) (remote : List (String × String))
    (cache : List String) : List String :=
  remote.foldl
    (fun c nv => if c.contains nv.1 then c else if dl nv.2 then c.insert nv.1 else c)
    cache

/-- The deletion loop of `sync_dropbox_folder`. -/
def deletePass (remote : List (String × String)) (cache : List String) :
    List String :=
  cache.filter
    (fun f => !(SUPPORTED_EXTS.contains (extOf f)) || remote.any (fun nv => nv.1 == f))

/-- `sync_dropbox_folder`.  `first` is the `files/list_folder` response
(`none` when it failed), `conts` the successive continuation responses,
`cache` the local folder contents. -/
def sync_dropbox_folder (dl : String → Bool) (first : Option Page)
    (conts : List (Option Page)) (cache : List String) : Bool × List String :=
  match first with
  | none => (false, cache)
  | some p =>
    let entries := collectEntries p conts
    let remote := remoteImages entries
    if remote.isEmpty then (false, cache)
    else (true, deletePass remote (downloadPass dl remote cache))

end Dropbox

/-! ### Weather poller

`fetch_weather()` returns a complete two-line dict or `None`.
`WeatherThread.run` stores that result into the shared cell on every poll:
`result = fetch_weather(); with lock: data = result`.  Readers call
`get()`, which returns the cell under the same lock. -/

/-- The two-line weather snapshot built by `fetch_weather`. -/
structure WeatherData where
  line1 : String
  line2 : String
deriving DecidableEq, Repr

/-- The value of the shared weather cell after a sequence of polls whose
fetch results were `fetches` (`none` is a failed fetch).  The cell starts
absent; each poll executes `data = result`. -/
def weatherLoopData (fetches : List (Option WeatherData)) : Option WeatherData :=
  fetches.foldl (fun _data result => result) none

/-! #### Interleaved accesses to the weather cell

`WeatherThread` protects the cell with one lock: the writer assigns the
already fully constructed dict under the lock, the readers return the
reference under the lock.  An execution is therefore a sequence of atomic
cell actions: whole-snapshot writes by the poller and reads by the render
loop. -/

/-- One atomic, lock-protected access to the weather cell. -/
inductive CellAction where
  | write (v : Option WeatherData)
  | read
deriving DecidableEq, Repr

/-- The values returned by the reads of an execution, threading the cell
value (initially `start`). -/
def readsSeenFrom (start : Option WeatherData) :
    List CellAction → List (Option WeatherData)
  | [] => []
  | .write v :: rest => readsSeenFrom v rest
  | .read :: rest => start :: readsSeenFrom start rest

/-- The values returned by the reads of an execution that starts with an
absent snapshot (`data = None` in `WeatherThread.__init__`). -/
def readsSeen (acts : List CellAction) : List (Option WeatherData) :=
  readsSeenFrom none acts

/-- The complete snapshots written during an execution. -/
def writesOf (acts : List CellAction) : List (Option WeatherData) :=
  acts.filterMap (fun a => match a with | .write v => some v | .read => none)

/-! ### WMO weather-code tables -/

namespace GDrive

/-- `WMO_CODES` of `slideshow.py` (also the table of `slideshow-3.py` and
`slideshow-4.py`). -/
def WMO_CODES : List (Int × String) :=
  [(0, "Clear"), (1, "Mostly Clear"), (2, "Partly Cloudy"), (3, "Overcast"),
   (45, "Fog"), (48, "Fog"),
   (51, "Light Drizzle"), (53, "Drizzle"), (55, "Heavy Drizzle"),
   (56, "Freezing Drizzle"), (57, "Heavy Freezing Drizzle"),
   (61, "Light Rain"), (63, "Rain"), (65, "Heavy Rain"),
   (66, "Freezing Rain"), (67, "Heavy Freezing Rain"),
   (71, "Light Snow"), (73, "Snow"), (75, "Heavy Snow"), (77, "Snow Grains"),
   (80, "Light Showers"), (81, "Showers"), (82, "Heavy Showers"),
   (85, "Snow Showers"), (86, "Heavy Snow Showers"),
   (95, "Thunderstorm"), (96, "Thunderstorm+Hail"), (99, "Thunderstorm+Hail")]

/-- `WMO_CODES.get(int(code), 'Unknown')` as used in `fetch_weather` of
`slideshow.py`. -/
def wmoLabel (code : Int) : String := (WMO_CODES.lookup code).getD "Unknown"

end GDrive

namespace V1

/-- `WMO_CODES` of `slideshow-1.py`: same table except 96/99. -/
def WMO_CODES : List (Int × String) :=
  [(0, "Clear"), (1, "Mostly Clear"), (2, "Partly Cloudy"), (3, "Overcast"),
   (45, "Fog"), (48, "Fog"),
   (51, "Light Drizzle"), (53, "Drizzle"), (55, "Heavy Drizzle"),
   (56, "Freezing Drizzle"), (57, "Heavy Freezing Drizzle"),
   (61, "Light Rain"), (63, "Rain"), (65, "Heavy Rain"),
   (66, "Freezing Rain"), (67, "Heavy Freezing Rain"),
   (71, "Light Snow"), (73, "Snow"), (75, "Heavy Snow"), (77, "Snow Grains"),
   (80, "Light Showers"), (81, "Showers"), (82, "Heavy Showers"),
   (85, "Snow Showers"), (86, "Heavy Snow Showers"),
   (95, "Thunderstorm"), (96, "Thunderstorm w/ Hail"), (99, "Thunderstorm w/ Hail")]

/-- `wmo_label` of `slideshow-1.py`. -/
def wmo_label (code : Int) : String := (WMO_CODES.lookup code).getD "Unknown"

end V1

/-- Modelled from the spec:
the fixed code-to-label table of the spec (section 6, repeated in the
claim), whose entries for 96 and 99 are "Thunderstorm+Hail"; unmapped
codes render as "Unknown" via the same default lookup. -/
def specWeatherTable : List (Int × String) :=
  [(0, "Clear"), (1, "Mostly Clear"), (2, "Partly Cloudy"), (3, "Overcast"),
   (45, "Fog"), (48, "Fog"),
   (51, "Light Drizzle"), (53, "Drizzle"), (55, "Heavy Drizzle"),
   (56, "Freezing Drizzle"), (57, "Heavy Freezing Drizzle"),
   (61, "Light Rain"), (63, "Rain"), (65, "Heavy Rain"),
   (66, "Freezing Rain"), (67, "Heavy Freezing Rain"),
   (71, "Light Snow"), (73, "Snow"), (75, "Heavy Snow"), (77, "Snow Grains"),
   (80, "Light Showers"), (81, "Showers"), (82, "Heavy Showers"),
   (85, "Snow Showers"), (86, "Heavy Snow Showers"),
   (95, "Thunderstorm"), (96, "Thunderstorm+Hail"), (99, "Thunderstorm+Hail")]

/-! ### Crossfade

`crossfade(screen, old, new, ...)` runs `for i in range(1, steps + 1)`:
blit the old surface, set the new surface's alpha to `int(255 * i / steps)`,
blit it, call the overlay function when one was supplied, and flip.  The
code is identical in `slideshow.py`, `slideshow-1.py` and `slideshow-3.py`
(`slideshow-1.py` takes `steps` as a parameter, the others read
`CROSSFADE_STEPS`).  `255 * i` and `steps` are Python ints, so
`int(255 * i / steps)` is the floor of the exact quotient. -/

/-- The frames presented by one `crossfade` call: for each loop iteration,
the alpha applied to the incoming surface and whether the overlay function
was invoked on that frame. -/
def crossfadeFrames (steps : Nat) (overlaySupplied : Bool) : List (Nat × Bool) :=
  (List.range steps).map (fun k => (255 * (k + 1) / steps, overlaySupplied))

/-! ### Navigation: the "previous" command

In every variant's event handler, left key / left-third tap runs
`index = max(0, index - 2)` and forces the slide timer, and the advance
step then runs `index = (index + 1) % len(image_list)`. -/

/-- Net index produced by a "previous" command from index `i` followed by
the forced advance over a playlist of length `n`. -/
def prev_then_advance (i n : Int) : Int := (max 0 (i - 2) + 1) % n

/-! ### The render-loop tick of slideshow.py / slideshow-3.py

One iteration of the `while running` loop, with its inputs made explicit:
the navigation commands decoded from the pygame events, the fresh
directory listing (already in the order produced by the optional
shuffle — shuffling permutes the list and never changes its length or
membership), whether the slide timer had expired at the top of the loop,
and the image decoder (`load_and_scale`, `none` on failure).  The tick
returns the new loop state together with every `image_list[...]` access it
performed, as (list, index) pairs. -/

/-- A navigation command: right key / right-third tap, left key /
left-third tap, or an event that moves nothing. -/
inductive NavCmd where
  | next
  | prev
  | idle
deriving DecidableEq, Repr

/-- Event handling for one event: `next` forces the timer; `prev` runs
`index = max(0, index - 2)` (truncated subtraction on `Nat`) and forces
the timer. -/
def applyEvent (p : Nat × Bool) : NavCmd → Nat × Bool
  | .next => (p.1, true)
  | .prev => (p.1 - 2, true)
  | .idle => p

/-- The mutable state of the render loop across ticks. -/
structure TickState (α : Type) where
  imageList : List String
  index : Nat
  currentSurf : Option α

/-- The inputs consumed by one tick. -/
structure TickIn (α : Type) where
  events : List NavCmd
  freshList : List String
  timerExpired : Bool
  decode : String → Option α

/-- Index and forced-timer flag after the event loop. -/
def eventFold {α : Type} (s : TickState α) (inp : TickIn α) : Nat × Bool :=
  inp.events.foldl applyEvent (s.index, inp.timerExpired)

/-- One iteration of the main loop of `slideshow.py` / `slideshow-3.py`:
event handling, the first-load branch (which resets the timer, so the
advance branch cannot also run), the advance branch with
`current_surf = new_surf or old_surf`, and the draw phase (which accesses
no list element). -/
def tick {α : Type} (s : TickState α) (inp : TickIn α) :
    TickState α × List (List String × Nat) :=
  let i1 := (eventFold s inp).1
  let forced := (eventFold s inp).2
  if s.currentSurf.isNone && !inp.freshList.isEmpty then
    (⟨inp.freshList, 0, inp.decode (inp.freshList.getD 0 "")⟩, [(inp.freshList, 0)])
  else if forced && s.currentSurf.isSome then
    if inp.freshList.isEmpty then
      (⟨inp.freshList, i1, s.currentSurf⟩, [])
    else
      let j := (i1 + 1) % inp.freshList.length
      (⟨inp.freshList, j, (inp.decode (inp.freshList.getD j "")).or s.currentSurf⟩,
       [(inp.freshList, j)])
  else (⟨s.imageList, i1, s.currentSurf⟩, [])

/-- What the draw phase shows: the current surface, or the placeholder /
"No photos found" status screen when there is none. -/
inductive Frame (α : Type) where
  | slide (a : α)
  | placeholder
deriving DecidableEq

/-- The draw phase: `if current_surf: blit(...) else: draw_status(...)`
(`draw_no_photos` in `slideshow-1.py`). -/
def renderFrame {α : Type} : Option α → Frame α
  | some a => .slide a
  | none => .placeholder

namespace V1

/-- The slide-advance block of `slideshow-1.py`'s main loop: re-index with
`index = (index + 1) % max(len(image_list), 1)`, decode
`image_list[index % len(image_list)]` when the list is non-empty, and set
`current_surf = new_surf` — even when decoding failed. -/
def advanceSlide {α : Type} (decode : String → Option α) (_cur : Option α)
    (lst : List String) (i : Nat) : Option α × Nat :=
  let j := (i + 1) % max lst.length 1
  let newSurf := if lst.isEmpty then none else decode (lst.getD (j % lst.length) "")
  (newSurf, j)

end V1

/-! ## Helper lemmas -/

theorem foldl_keep_last {β : Type} (l : List β) (a : β) :
    l.foldl (fun _x r => r) a = l.getLast?.getD a := by
  induction l generalizing a with
  | nil => rfl
  | cons h t ih =>
    rw [List.foldl_cons, ih h]
    cases t with
    | nil => rfl
    | cons h2 t2 =>
      rw [List.getLast?_cons_cons]
      obtain ⟨x, hx⟩ := Option.isSome_iff_exists.1
        (List.getLast?_isSome.2 (List.cons_ne_nil h2 t2))
      rw [hx]
      rfl

theorem getD_range_map {β : Type} (f : Nat → β) (d : β) (S k : Nat) (h : k < S) :
    ((List.range S).map f).getD k d = f k := by
  have hlen : k < ((List.range S).map f).length := by simpa using h
  rw [List.getD_eq_getElem _ _ hlen]
  simp

/-! ## Claim C3 — weather snapshot on failed fetches -/

/-- C3, counterexample: `WeatherThread.run` stores the raw fetch result,
so after a successful poll followed by a failed one the snapshot is
absent again — a reader observes it go from present back to absent,
against the claimed retention of the previous snapshot. -/
theorem weather_failure_clears_snapshot :
    weatherLoopData [some ⟨"72F  Clear", "Wind: 5 mph"⟩] =
      some ⟨"72F  Clear", "Wind: 5 mph"⟩ ∧
    weatherLoopData [some ⟨"72F  Clear", "Wind: 5 mph"⟩, none] = none :=
  ⟨rfl, rfl⟩

/-- C3, amended: every poll replaces the shared snapshot with that poll's
fetch result — the new value on success and absent on failure — so the
cell always holds the most recent fetch result, not the most recent
successful one. -/
theorem weather_cell_is_last_fetch (fetches : List (Option WeatherData)) :
    weatherLoopData fetches = fetches.getLast?.getD none :=
  foldl_keep_last fetches none

/-! ## Claim C4 — the "previous" command -/

/-- C4, counterexample: "previous" from index 1 of a 3-slide playlist
shows index 1 again (`max(0, 1-2) = 0`, then `(0+1) % 3 = 1`), not the
claimed `(1-1) % 3 = 0`. -/
theorem prev_command_counterexample :
    prev_then_advance 1 3 = 1 ∧ ((1 : Int) - 1) % 3 = 0 ∧ (1 : Int) ≠ 0 := by
  refine ⟨by decide, by decide, by decide⟩

/-- C4, amended: the "previous" command is implemented as
`index = max(0, index - 2)` followed by a forced advance, so from index
`i` of an `n`-slide playlist the engine next shows `(i-1) % n` when
`i ≥ 2`, but shows `1 % n` when `i` is 0 or 1 (the clamp at 0 prevents
wrapping to the end of the playlist). -/
theorem prev_command_net_index (i n : Int) (_hi : 0 ≤ i) (_hn : 1 ≤ n) :
    prev_then_advance i n = if 2 ≤ i then (i - 1) % n else 1 % n := by
  unfold prev_then_advance
  by_cases h : 2 ≤ i
  · rw [if_pos h, max_eq_right (by omega : (0 : Int) ≤ i - 2)]
    congr 1
    omega
  · rw [if_neg h, max_eq_left (by omega : i - 2 ≤ (0 : Int))]
    norm_num

/-- C4, witness for `prev_command_net_index` at `i = 5`, `n = 7`. -/
theorem prev_command_net_index_witness :
    (0 ≤ (5 : Int)) ∧ (1 ≤ (7 : Int)) ∧
      prev_then_advance 5 7 = if 2 ≤ (5 : Int) then ((5 : Int) - 1) % 7 else 1 % 7 :=
  ⟨by decide, by decide, prev_command_net_index 5 7 (by decide) (by decide)⟩

/-! ## Claim C6 — crossfade frames -/

/-- C6: a crossfade with `S ≥ 1` steps presents exactly `S` frames; the
alpha of frame `k` (0-based) is `⌊255(k+1)/S⌋`, non-decreasing from
`⌊255/S⌋` on the first frame to exactly 255 on the last, and the overlay
function is invoked on every frame when supplied. -/
theorem crossfade_frames_spec (S : Nat) (hS : 1 ≤ S) :
    (crossfadeFrames S true).length = S ∧
    (∀ k, k < S → (crossfadeFrames S true).getD k (0, false) = (255 * (k + 1) / S, true)) ∧
    (∀ j k, j ≤ k → k < S →
      ((crossfadeFrames S true).getD j (0, false)).1 ≤
        ((crossfadeFrames S true).getD k (0, false)).1) ∧
    ((crossfadeFrames S true).getD 0 (0, false)).1 = 255 / S ∧
    ((crossfadeFrames S true).getD (S - 1) (0, false)).1 = 255 ∧
    (∀ fr ∈ crossfadeFrames S true, fr.2 = true) := by
  have hget : ∀ k, k < S →
      (crossfadeFrames S true).getD k (0, false) = (255 * (k + 1) / S, true) := by
    intro k hk
    exact getD_range_map (fun k => (255 * (k + 1) / S, true)) (0, false) S k hk
  refine ⟨by simp [crossfadeFrames], hget, ?_, ?_, ?_, ?_⟩
  · intro j k hjk hk
    rw [hget j (lt_of_le_of_lt hjk hk), hget k hk]
    exact Nat.div_le_div_right (Nat.mul_le_mul_left 255 (by omega))
  · rw [hget 0 (by omega)]
  · rw [hget (S - 1) (by omega)]
    have : S - 1 + 1 = S := by omega
    rw [this, Nat.mul_div_cancel 255 (by omega)]
  · intro fr hfr
    rcases List.mem_map.1 hfr with ⟨k, _hk, hk2⟩
    exact hk2 ▸ rfl

/-- C6, witness for `crossfade_frames_spec` at the configured
`CROSSFADE_STEPS = 30`. -/
theorem crossfade_frames_spec_witness :
    (1 ≤ 30) ∧
    ((crossfadeFrames 30 true).length = 30 ∧
     (∀ k, k < 30 → (crossfadeFrames 30 true).getD k (0, false) = (255 * (k + 1) / 30, true)) ∧
     (∀ j k, j ≤ k → k < 30 →
       ((crossfadeFrames 30 true).getD j (0, false)).1 ≤
         ((crossfadeFrames 30 true).getD k (0, false)).1) ∧
     ((crossfadeFrames 30 true).getD 0 (0, false)).1 = 255 / 30 ∧
     ((crossfadeFrames 30 true).getD (30 - 1) (0, false)).1 = 255 ∧
     (∀ fr ∈ crossfadeFrames 30 true, fr.2 = true)) :=
  ⟨by decide, crossfade_frames_spec 30 (by decide)⟩

/-! ## Claim C2 — listing failure and the cache -/

/-- C2, counterexample: with a first page carrying `has_more` and a failed
continuation request, `sync_dropbox_folder` executes `break` and carries
on with the partial listing: here it downloads `a.jpg` and deletes
`b.jpg`, so the cache is mutated by a cycle whose listing failed partway,
and the cycle is even reported successful. -/
theorem dropbox_continue_failure_mutates_cache :
    Dropbox.sync_dropbox_folder (fun _ => true)
        (some ⟨[⟨"a.jpg", "/a.jpg", true⟩], true⟩) [none] ["b.jpg"] =
      (true, ["a.jpg"]) ∧
    ("b.jpg" : String) ∈ (["b.jpg"] : List String) ∧
    ("b.jpg" : String) ∉ (["a.jpg"] : List String) ∧
    ("a.jpg" : String) ∉ (["b.jpg"] : List String) := by
  refine ⟨by decide, by decide, by decide, by decide⟩

/-- C2, amended: when the initial `files/list_folder` request fails the
cycle reports failure and the cache is untouched; but when a pagination
continuation request fails partway, the cycle proceeds exactly as if the
entries fetched so far were the complete listing (and may therefore
download and delete files). -/
theorem dropbox_listing_failure_behaviour :
    (∀ (dl : String → Bool) (conts : List (Option Dropbox.Page)) (cache : List String),
      Dropbox.sync_dropbox_folder dl none conts cache = (false, cache)) ∧
    (∀ (dl : String → Bool) (p : Dropbox.Page) (rest : List (Option Dropbox.Page))
        (cache : List String),
      Dropbox.sync_dropbox_folder dl (some p) (none :: rest) cache =
        Dropbox.sync_dropbox_folder dl (some ⟨p.entries, false⟩) [] cache) := by
  constructor
  · intro dl conts cache
    rfl
  · intro dl p rest cache
    rcases p with ⟨es, hm⟩
    cases hm <;> rfl

/-! ## Claim C8 — empty remote listing -/

/-- C8, counterexample to "no sync cycle ever transitions the local cache
from non-empty to empty": a successful cycle whose one listed image fails
to download still runs its deletion loop, removing the stale `b.jpg` and
leaving a previously non-empty cache empty. -/
theorem sync_can_empty_nonempty_cache :
    GDrive.sync_gdrive_folder GDrive.allFailEnv (some [("id1", "a.jpg")]) ["b.jpg"] =
      (true, []) ∧
    (["b.jpg"] : List String) ≠ [] := by
  refine ⟨by decide, by decide⟩

/-- C8, amended: a cycle whose listing succeeds with zero (supported)
entries reports failure and leaves the cache untouched — no downloads, no
deletions — in both the Drive variant (`if not entries: return False`)
and the Dropbox variant (`if not remote_images: return False`); a cycle
with a non-empty listing, however, can still empty the cache when its
downloads fail. -/
theorem sync_empty_listing_fails_untouched (env : GDrive.SyncEnv)
    (cache : List String) (dl : String → Bool) (p : Dropbox.Page)
    (conts : List (Option Dropbox.Page))
    (hrm : Dropbox.remoteImages (Dropbox.collectEntries p conts) = []) :
    GDrive.sync_gdrive_folder env (some []) cache = (false, cache) ∧
    Dropbox.sync_dropbox_folder dl (some p) conts cache = (false, cache) := by
  constructor
  · rfl
  · simp only [Dropbox.sync_dropbox_folder, hrm]
    rfl

/-- C8, witness for `sync_empty_listing_fails_untouched`: a Dropbox page
whose only entry is a folder yields zero supported images. -/
theorem sync_empty_listing_fails_untouched_witness :
    Dropbox.remoteImages
        (Dropbox.collectEntries ⟨[⟨"sub", "/sub", false⟩], false⟩ []) = [] ∧
    (GDrive.sync_gdrive_folder GDrive.allOkEnv (some []) ["b.jpg"] =
        (false, ["b.jpg"]) ∧
     Dropbox.sync_dropbox_folder (fun _ => true)
        (some ⟨[⟨"sub", "/sub", false⟩], false⟩) [] ["b.jpg"] =
        (false, ["b.jpg"])) :=
  ⟨by decide,
   sync_empty_listing_fails_untouched GDrive.allOkEnv ["b.jpg"] (fun _ => true)
     ⟨[⟨"sub", "/sub", false⟩], false⟩ [] (by decide)⟩

/-! ## Claim C5 — decode failure at render time -/

/-- C5, counterexample: in `slideshow-1.py` the advance block executes
`current_surf = new_surf` even when `load_and_scale` returned `None`, so
a decode failure drops the currently displayed surface and the draw phase
shows the "No photos found" placeholder instead of retaining the slide. -/
theorem v1_decode_failure_blanks_frame :
    (V1.advanceSlide (fun _ => (none : Option String)) (some "old") ["p.jpg"] 0).1 =
      none ∧
    renderFrame
        (V1.advanceSlide (fun _ => (none : Option String)) (some "old") ["p.jpg"] 0).1 =
      Frame.placeholder ∧
    renderFrame (some "old") = Frame.slide "old" :=
  ⟨rfl, rfl, rfl⟩

/-- C5, amended: in `slideshow.py` and `slideshow-3.py` the advance step
sets `current_surf = new_surf or old_surf`, so when the incoming image
fails to decode the previously shown surface is retained (and the frame is
not blanked); in `slideshow-1.py`, by contrast, the current surface is
replaced by the failed (absent) decode result and the placeholder is
drawn. -/
theorem decode_failure_retains_surface {α : Type} (s : TickState α) (inp : TickIn α)
    (hsome : s.currentSurf.isSome = true)
    (hforced : (eventFold s inp).2 = true)
    (hne : inp.freshList.isEmpty = false)
    (hdec : inp.decode
        (inp.freshList.getD (((eventFold s inp).1 + 1) % inp.freshList.length) "") =
      none) :
    (tick s inp).1.currentSurf = s.currentSurf ∧
    renderFrame (tick s inp).1.currentSurf = renderFrame s.currentSurf := by
  have hnone : s.currentSurf.isNone = false := by
    cases hcur : s.currentSurf with
    | none => rw [hcur] at hsome; simp at hsome
    | some a => rfl
  have h1 : (tick s inp).1.currentSurf = s.currentSurf := by
    unfold tick
    rw [hnone, hforced, hsome, hne]
    simp only [List.getD_eq_getElem?_getD] at hdec
    simp [hdec]
  exact ⟨h1, by rw [h1]⟩

/-- C5, witness for `decode_failure_retains_surface`: a forced advance
whose incoming image fails to decode keeps showing the old surface. -/
theorem decode_failure_retains_surface_witness :
    ((⟨["p.jpg"], 0, some "old"⟩ : TickState String).currentSurf.isSome = true) ∧
    ((eventFold (⟨["p.jpg"], 0, some "old"⟩ : TickState String)
        ⟨[NavCmd.next], ["p.jpg"], false, fun _ => none⟩).2 = true) ∧
    ((tick (⟨["p.jpg"], 0, some "old"⟩ : TickState String)
        ⟨[NavCmd.next], ["p.jpg"], false, fun _ => none⟩).1.currentSurf = some "old" ∧
     renderFrame
        (tick (⟨["p.jpg"], 0, some "old"⟩ : TickState String)
          ⟨[NavCmd.next], ["p.jpg"], false, fun _ => none⟩).1.currentSurf =
       renderFrame (some "old")) :=
  ⟨rfl, rfl,
   decode_failure_retains_surface
     (⟨["p.jpg"], 0, some "old"⟩ : TickState String)
     ⟨[NavCmd.next], ["p.jpg"], false, fun _ => none⟩ rfl rfl rfl rfl⟩

/-! ## Claim C10 — torn reads of the weather snapshot -/

/-- Every value returned by a read is the initial cell value or one of the
complete written snapshots. -/
theorem readsSeenFrom_mem (start : Option WeatherData) (acts : List CellAction)
    (ob : Option WeatherData) (h : ob ∈ readsSeenFrom start acts) :
    ob = start ∨ ob ∈ writesOf acts := by
  induction acts generalizing start with
  | nil => simp [readsSeenFrom] at h
  | cons a rest ih =>
    cases a with
    | write v =>
      rcases ih v h with h1 | h1
      · right
        simp [writesOf, h1]
      · right
        simp [writesOf]
        right
        simpa [writesOf] using h1
    | read =>
      rcases List.mem_cons.1 h with h1 | h1
      · exact Or.inl h1
      · rcases ih start h1 with h2 | h2
        · exact Or.inl h2
        · right
          simpa [writesOf] using h2

/-- C10: the weather cell is read and written only under one lock, and the
writer stores a reference to a dict that `fetch_weather` constructed in
full before the lock was taken.  In any interleaving of such atomic
whole-snapshot writes with reads, every read returns either the absent
initial value or one of the complete written snapshots — in particular a
present observation with `line1` of one write and `line2` of another is
only possible if that exact complete pair was itself written. -/
theorem weather_reads_never_torn (acts : List CellAction) (ob : Option WeatherData)
    (h : ob ∈ readsSeen acts) :
    (ob = none ∨ ob ∈ writesOf acts) ∧
    (∀ w : WeatherData, ob = some w → some w ∈ writesOf acts) := by
  have base := readsSeenFrom_mem none acts ob h
  refine ⟨base, ?_⟩
  intro w hw
  rcases base with h1 | h1
  · rw [hw] at h1
    exact absurd h1 (by simp)
  · rw [hw] at h1
    exact h1

/-- C10, witness for `weather_reads_never_torn`: a read after one write
observes exactly the written snapshot. -/
theorem weather_reads_never_torn_witness :
    (some ⟨"65F  Rain", "Wind: 10 mph"⟩ ∈
      readsSeen [CellAction.write (some ⟨"65F  Rain", "Wind: 10 mph"⟩),
                 CellAction.read]) ∧
    ((some (⟨"65F  Rain", "Wind: 10 mph"⟩ : WeatherData) = none ∨
      some ⟨"65F  Rain", "Wind: 10 mph"⟩ ∈
        writesOf [CellAction.write (some ⟨"65F  Rain", "Wind: 10 mph"⟩),
                  CellAction.read]) ∧
     (∀ w : WeatherData,
        some (⟨"65F  Rain", "Wind: 10 mph"⟩ : WeatherData) = some w →
        some w ∈
          writesOf [CellAction.write (some ⟨"65F  Rain", "Wind: 10 mph"⟩),
                    CellAction.read])) :=
  ⟨by decide,
   weather_reads_never_torn
     [CellAction.write (some ⟨"65F  Rain", "Wind: 10 mph"⟩), CellAction.read]
     (some ⟨"65F  Rain", "Wind: 10 mph"⟩) (by decide)⟩

/-! ## Claim C9 — the WMO code table -/

theorem lookup_none_of_keys_eq {l1 l2 : List (Int × String)}
    (h : l1.map Prod.fst = l2.map Prod.fst) {c : Int}
    (hn : l1.lookup c = none) : l2.lookup c = none := by
  induction l1 generalizing l2 with
  | nil =>
    cases l2 with
    | nil => rfl
    | cons p t => simp at h
  | cons p t ih =>
    cases l2 with
    | nil => simp at h
    | cons q t2 =>
      simp only [List.map_cons, List.cons.injEq] at h
      rw [List.lookup_cons] at hn ⊢
      rcases hbeq : (c == p.1) with _ | _
      · rw [hbeq] at hn
        rw [← h.1, hbeq]
        exact ih h.2 hn
      · rw [hbeq] at hn
        simp at hn

/-- C9, counterexample: `slideshow-1.py` renders codes 96 and 99 as
"Thunderstorm w/ Hail", not the "Thunderstorm+Hail" stated by the claim
(and used by the other three variants). -/
theorem wmo_label_v1_hail_mismatch :
    V1.wmo_label 96 = "Thunderstorm w/ Hail" ∧
    V1.wmo_label 99 = "Thunderstorm w/ Hail" ∧
    ("Thunderstorm w/ Hail" : String) ≠ "Thunderstorm+Hail" := by
  refine ⟨by decide, by decide, by decide⟩

/-- C9, amended: the rendered condition label is the fixed table's entry
for the code and unmapped codes render as "Unknown"; the table of
`slideshow.py` (shared by `slideshow-3.py` / `slideshow-4.py`) agrees with
the claim's table on every code, while `slideshow-1.py` agrees on every
code except 96 and 99, which it renders as "Thunderstorm w/ Hail". -/
theorem wmo_label_matches_table :
    (∀ p ∈ specWeatherTable, GDrive.wmoLabel p.1 = p.2) ∧
    (∀ p ∈ V1.WMO_CODES, V1.wmo_label p.1 = p.2) ∧
    (∀ c : Int, specWeatherTable.lookup c = none →
      GDrive.wmoLabel c = "Unknown" ∧ V1.wmo_label c = "Unknown") := by
  refine ⟨by decide, by decide, ?_⟩
  intro c hc
  constructor
  · unfold GDrive.wmoLabel
    rw [lookup_none_of_keys_eq
      (by decide : specWeatherTable.map Prod.fst = GDrive.WMO_CODES.map Prod.fst) hc]
    rfl
  · unfold V1.wmo_label
    rw [lookup_none_of_keys_eq
      (by decide : specWeatherTable.map Prod.fst = V1.WMO_CODES.map Prod.fst) hc]
    rfl

/-- C9, witness for `wmo_label_matches_table`: code 0 maps to "Clear" and
the unmapped code 100 maps to "Unknown" in both tables. -/
theorem wmo_label_matches_table_witness :
    ((0, "Clear") ∈ specWeatherTable) ∧
    (specWeatherTable.lookup 100 = none) ∧
    GDrive.wmoLabel ((0 : Int), "Clear").1 = ((0 : Int), "Clear").2 ∧
    (GDrive.wmoLabel 100 = "Unknown" ∧ V1.wmo_label 100 = "Unknown") :=
  ⟨by decide, by decide,
   wmo_label_matches_table.1 (0, "Clear") (by decide),
   wmo_label_matches_table.2.2 100 (by decide)⟩

/-! ## Claim C1 — cache contents after a successful cycle -/

theorem contains_iff_mem {l : List String} {a : String} :
    l.contains a = true ↔ a ∈ l := by
  simp [List.contains]

theorem lastValidDotBelow_isValid (cs : List Char) (n i : Nat)
    (h : lastValidDotBelow cs n = some i) : isValidDot cs i = true := by
  induction n with
  | zero => simp [lastValidDotBelow] at h
  | succ m ih =>
    simp only [lastValidDotBelow] at h
    cases hb : isValidDot cs m with
    | false =>
      rw [hb] at h
      simp at h
      exact ih h
    | true =>
      rw [hb] at h
      simp at h
      exact h ▸ hb

theorem heic_stem_nonDot (name : String) (h : GDrive.isHeicName name = true) :
    (splitextStem name).data.any (fun c => c != '.') = true := by
  cases hlv : lastValidDot name.data with
  | none =>
    exfalso
    have hx : extOf name = "" := by
      unfold extOf splitextExt
      rw [hlv]
      rfl
    unfold GDrive.isHeicName at h
    rw [hx] at h
    exact absurd h (by decide)
  | some i =>
    have hv : isValidDot name.data i = true := lastValidDotBelow_isValid _ _ _ hlv
    have hany : (name.data.take i).any (fun c => c != '.') = true :=
      (Bool.and_eq_true_iff.1 hv).2
    unfold splitextStem
    rw [hlv]
    exact hany

theorem ext_append_jpg (t : String)
    (h : t.data.any (fun c => c != '.') = true) :
    extOf (t ++ ".jpg") = ".jpg" := by
  have hdata : (t ++ ".jpg").data = t.data ++ ['.', 'j', 'p', 'g'] := by
    cases t
    rfl
  have hg : isValidDot (t.data ++ ['.', 'j', 'p', 'g']) (t.data.length + 3) = false := by
    unfold isValidDot
    rw [List.getD_append_right _ _ _ _ (by omega),
        show t.data.length + 3 - t.data.length = 3 by omega]
    rfl
  have hp : isValidDot (t.data ++ ['.', 'j', 'p', 'g']) (t.data.length + 2) = false := by
    unfold isValidDot
    rw [List.getD_append_right _ _ _ _ (by omega),
        show t.data.length + 2 - t.data.length = 2 by omega]
    rfl
  have hj : isValidDot (t.data ++ ['.', 'j', 'p', 'g']) (t.data.length + 1) = false := by
    unfold isValidDot
    rw [List.getD_append_right _ _ _ _ (by omega),
        show t.data.length + 1 - t.data.length = 1 by omega]
    rfl
  have h0 : isValidDot (t.data ++ ['.', 'j', 'p', 'g']) t.data.length = true := by
    unfold isValidDot
    rw [List.getD_append_right _ _ _ _ (le_refl _), Nat.sub_self,
        List.take_left' rfl, h]
    rfl
  have hlvd : lastValidDot (t.data ++ ['.', 'j', 'p', 'g']) = some t.data.length := by
    unfold lastValidDot
    rw [show (t.data ++ ['.', 'j', 'p', 'g']).length = t.data.length + 3 + 1 by
      simp only [List.length_append]
      rfl]
    simp only [lastValidDotBelow, hg, hp, hj, h0]
    norm_num
  have hext : splitextExt (t ++ ".jpg") = ".jpg" := by
    unfold splitextExt
    rw [hdata, hlvd]
    show (⟨List.drop t.data.length (t.data ++ ['.', 'j', 'p', 'g'])⟩ : String) = ".jpg"
    rw [List.drop_left' rfl]
  unfold extOf
  rw [hext]
  decide

theorem supported_not_heic :
    ∀ x ∈ GDrive.SUPPORTED_EXTS, x ∉ GDrive.HEIC_EXTS := by decide

theorem expected_ext_supported (name : String)
    (hext : extOf name ∈ GDrive.ALL_DOWNLOAD_EXTS) :
    extOf (GDrive.expectedLocalName name) ∈ GDrive.SUPPORTED_EXTS := by
  unfold GDrive.expectedLocalName
  cases hh : GDrive.isHeicName name with
  | true =>
    rw [if_pos rfl, ext_append_jpg _ (heic_stem_nonDot name hh)]
    decide
  | false =>
    rw [if_neg Bool.false_ne_true]
    rcases List.mem_append.1 hext with h1 | h1
    · exact h1
    · have hbad : GDrive.isHeicName name = true := contains_iff_mem.2 h1
      rw [hbad] at hh
      exact absurd hh (by decide)

theorem downloadStep_mem_mono (env : GDrive.SyncEnv) (c : List String)
    (nf : String × String) (f : String)
    (hf : extOf f ∈ GDrive.SUPPORTED_EXTS) (hmem : f ∈ c) :
    f ∈ GDrive.downloadStep env c nf := by
  simp only [GDrive.downloadStep]
  split_ifs with h1 h2 h3 h4
  · exact hmem
  · have hne : f ≠ nf.1 := by
      intro he
      have h3m : GDrive.HEIC_EXTS.contains (extOf nf.1) = true := h3
      have hheic : extOf nf.1 ∈ GDrive.HEIC_EXTS := contains_iff_mem.1 h3m
      rw [← he] at hheic
      exact supported_not_heic _ hf hheic
    exact List.mem_insert_of_mem
      ((List.mem_erase_of_ne hne).2 (List.mem_insert_of_mem hmem))
  · exact List.mem_insert_of_mem hmem
  · exact List.mem_insert_of_mem hmem
  · exact hmem

theorem downloadStep_adds_expected (env : GDrive.SyncEnv) (c : List String)
    (nf : String × String) (hdl : env.dl nf.2 = true)
    (hcv : GDrive.isHeicName nf.1 = true →
      env.heicSupport = true ∧ env.conv nf.1 = true) :
    GDrive.expectedLocalName nf.1 ∈ GDrive.downloadStep env c nf := by
  simp only [GDrive.downloadStep]
  by_cases h1 : c.contains (GDrive.expectedLocalName nf.1) = true
  · rw [if_pos h1]
    exact contains_iff_mem.1 h1
  · rw [if_neg h1, if_pos hdl]
    cases h2 : GDrive.isHeicName nf.1 with
    | true =>
      rw [if_pos rfl]
      rcases hcv h2 with ⟨ha, hb⟩
      rw [ha, hb, if_pos (show (true && true) = true from rfl)]
      have he : GDrive.expectedLocalName nf.1 = splitextStem nf.1 ++ ".jpg" := by
        unfold GDrive.expectedLocalName
        rw [if_pos h2]
      rw [he]
      exact List.mem_insert_self _ _
    | false =>
      rw [if_neg Bool.false_ne_true]
      have he : GDrive.expectedLocalName nf.1 = nf.1 := by
        unfold GDrive.expectedLocalName
        rw [if_neg (by rw [h2]; exact Bool.false_ne_true)]
      rw [he]
      exact List.mem_insert_self _ _

theorem foldl_downloadStep_mono (env : GDrive.SyncEnv)
    (l : List (String × String)) (c : List String) (f : String)
    (hf : extOf f ∈ GDrive.SUPPORTED_EXTS) (hmem : f ∈ c) :
    f ∈ l.foldl (GDrive.downloadStep env) c := by
  induction l generalizing c with
  | nil => exact hmem
  | cons p t ih => exact ih _ (downloadStep_mem_mono env c p f hf hmem)

theorem foldl_downloadStep_adds (env : GDrive.SyncEnv)
    (l : List (String × String)) (c : List String)
    (hdl : ∀ p ∈ l, env.dl p.2 = true)
    (hcv : ∀ p ∈ l, GDrive.isHeicName p.1 = true →
      env.heicSupport = true ∧ env.conv p.1 = true)
    (hext : ∀ p ∈ l, extOf p.1 ∈ GDrive.ALL_DOWNLOAD_EXTS)
    (q : String × String) (hq : q ∈ l) :
    GDrive.expectedLocalName q.1 ∈ l.foldl (GDrive.downloadStep env) c := by
  induction l generalizing c with
  | nil => cases hq
  | cons p t ih =>
    rcases List.mem_cons.1 hq with h | h
    · rw [h]
      exact foldl_downloadStep_mono env t _ _
        (expected_ext_supported p.1 (hext p (List.mem_cons_self p t)))
        (downloadStep_adds_expected env c p (hdl p (List.mem_cons_self p t))
          (hcv p (List.mem_cons_self p t)))
    · exact ih _ (fun r hr => hdl r (List.mem_cons_of_mem _ hr))
        (fun r hr => hcv r (List.mem_cons_of_mem _ hr))
        (fun r hr => hext r (List.mem_cons_of_mem _ hr)) h

theorem downloadStep_nodup (env : GDrive.SyncEnv) (c : List String)
    (nf : String × String) (h : c.Nodup) : (GDrive.downloadStep env c nf).Nodup := by
  simp only [GDrive.downloadStep]
  split_ifs
  · exact h
  · exact ((h.insert).erase _).insert
  · exact h.insert
  · exact h.insert
  · exact h

theorem foldl_downloadStep_nodup (env : GDrive.SyncEnv)
    (l : List (String × String)) (c : List String) (h : c.Nodup) :
    (l.foldl (GDrive.downloadStep env) c).Nodup := by
  induction l generalizing c with
  | nil => exact h
  | cons p t ih => exact ih _ (downloadStep_nodup env c p h)

/-- C1, counterexample: with a remote listing of just a.jpg whose download fails,
the cycle still returns success, but the cache's supported-extension set
(empty) differs from the expected-local set, which holds a.jpg. -/
theorem sync_failed_download_breaks_equality :
    GDrive.sync_gdrive_folder GDrive.allFailEnv (some [("id1", "a.jpg")]) [] =
      (true, []) ∧
    GDrive.expectedNames [("id1", "a.jpg")] = ["a.jpg"] ∧
    ("a.jpg" : String) ∉ ([] : List String) := by
  refine ⟨by decide, by decide, by decide⟩

/-- C1, amended: after a cycle whose listing succeeds with a non-empty
entry set, the supported-extension names in the cache equal exactly the
expected-local set, with no duplicates, PROVIDED every needed download
and HEIC conversion in the cycle succeeded; a failed download or
conversion leaves its expected file missing (while the cycle still
reports success), so equality holds only up to those missing files. -/
theorem sync_success_cache_matches_expected (env : GDrive.SyncEnv)
    (entries : List (String × String)) (cache : List String)
    (hne : entries ≠ [])
    (hnd : cache.Nodup)
    (hext : ∀ p ∈ GDrive.remoteDict entries, extOf p.1 ∈ GDrive.ALL_DOWNLOAD_EXTS)
    (hdl : ∀ p ∈ GDrive.remoteDict entries, env.dl p.2 = true)
    (hcv : ∀ p ∈ GDrive.remoteDict entries, GDrive.isHeicName p.1 = true →
      env.heicSupport = true ∧ env.conv p.1 = true) :
    (GDrive.sync_gdrive_folder env (some entries) cache).1 = true ∧
    (∀ f, (f ∈ (GDrive.sync_gdrive_folder env (some entries) cache).2 ∧
        extOf f ∈ GDrive.SUPPORTED_EXTS) ↔ f ∈ GDrive.expectedNames entries) ∧
    (GDrive.sync_gdrive_folder env (some entries) cache).2.Nodup := by
  have hsync : GDrive.sync_gdrive_folder env (some entries) cache =
      (true, GDrive.deletePass (GDrive.expectedNames entries)
        ((GDrive.remoteDict entries).foldl (GDrive.downloadStep env) cache)) := by
    cases entries with
    | nil => exact absurd rfl hne
    | cons p t => rfl
  rw [hsync]
  refine ⟨rfl, ?_, ?_⟩
  · intro f
    constructor
    · rintro ⟨hfmem, hfsup⟩
      unfold GDrive.deletePass at hfmem
      rcases List.mem_filter.1 hfmem with ⟨_, hpred⟩
      rw [contains_iff_mem.2 hfsup] at hpred
      simp at hpred
      exact hpred
    · intro hf
      rcases List.mem_map.1 hf with ⟨p, hp, hpe⟩
      have hsup : extOf f ∈ GDrive.SUPPORTED_EXTS :=
        hpe ▸ expected_ext_supported p.1 (hext p hp)
      refine ⟨?_, hsup⟩
      unfold GDrive.deletePass
      refine List.mem_filter.2 ⟨?_, ?_⟩
      · exact hpe ▸ foldl_downloadStep_adds env _ cache hdl hcv hext p hp
      · rw [contains_iff_mem.2 hf]
        simp
  · exact List.Nodup.filter _ (foldl_downloadStep_nodup env _ cache hnd)

/-- C1, witness for `sync_success_cache_matches_expected`: listing
of a.jpg and b.heic with every download and conversion succeeding, over a
cache holding the stale `c.png`. -/
theorem sync_success_cache_matches_expected_witness :
    ([("id1", "a.jpg"), ("id2", "b.heic")] : List (String × String)) ≠ [] ∧
    (["c.png"] : List String).Nodup ∧
    (∀ p ∈ GDrive.remoteDict [("id1", "a.jpg"), ("id2", "b.heic")],
      extOf p.1 ∈ GDrive.ALL_DOWNLOAD_EXTS) ∧
    (∀ p ∈ GDrive.remoteDict [("id1", "a.jpg"), ("id2", "b.heic")],
      GDrive.allOkEnv.dl p.2 = true) ∧
    (∀ p ∈ GDrive.remoteDict [("id1", "a.jpg"), ("id2", "b.heic")],
      GDrive.isHeicName p.1 = true →
      GDrive.allOkEnv.heicSupport = true ∧ GDrive.allOkEnv.conv p.1 = true) ∧
    ((GDrive.sync_gdrive_folder GDrive.allOkEnv
        (some [("id1", "a.jpg"), ("id2", "b.heic")]) ["c.png"]).1 = true ∧
     (∀ f, (f ∈ (GDrive.sync_gdrive_folder GDrive.allOkEnv
          (some [("id1", "a.jpg"), ("id2", "b.heic")]) ["c.png"]).2 ∧
        extOf f ∈ GDrive.SUPPORTED_EXTS) ↔
        f ∈ GDrive.expectedNames [("id1", "a.jpg"), ("id2", "b.heic")]) ∧
     (GDrive.sync_gdrive_folder GDrive.allOkEnv
        (some [("id1", "a.jpg"), ("id2", "b.heic")]) ["c.png"]).2.Nodup) :=
  ⟨by decide, by decide, by decide, by decide, by decide,
   sync_success_cache_matches_expected GDrive.allOkEnv
     [("id1", "a.jpg"), ("id2", "b.heic")] ["c.png"]
     (by decide) (by decide) (by decide) (by decide) (by decide)⟩

/-! ## Claim C7 — cursor validity in the render loop -/

/-- C7: every `image_list[...]` access performed by a tick of the
`slideshow.py` / `slideshow-3.py` main loop uses an index that is in
bounds for the list being accessed (the index is a natural number, so it
is never negative, and each access happens under a non-emptiness guard
with the index reduced modulo the fresh list's length); when an advance
runs (current surface present, timer forced, fresh list non-empty) the
new index is exactly `(index-after-events + 1) % len(fresh list)`; and
when the current surface is absent and the tick ends with an empty list,
the draw phase shows the placeholder. -/
theorem render_loop_cursor_valid {α : Type} (s : TickState α) (inp : TickIn α) :
    (∀ a ∈ (tick s inp).2, a.2 < a.1.length) ∧
    (s.currentSurf.isSome = true → (eventFold s inp).2 = true →
      inp.freshList.isEmpty = false →
      (tick s inp).1.index = ((eventFold s inp).1 + 1) % inp.freshList.length ∧
      (tick s inp).1.index < inp.freshList.length) ∧
    (s.currentSurf = none → (tick s inp).1.imageList = [] →
      renderFrame (tick s inp).1.currentSurf = (Frame.placeholder : Frame α)) := by
  refine ⟨?_, ?_, ?_⟩
  · intro a ha
    simp only [tick] at ha
    by_cases h1 : (s.currentSurf.isNone && !inp.freshList.isEmpty) = true
    · rw [if_pos h1] at ha
      have hne : inp.freshList ≠ [] := by
        rcases Bool.and_eq_true_iff.1 h1 with ⟨_, h12⟩
        intro he
        rw [he] at h12
        simp at h12
      have heq := List.mem_singleton.1 ha
      rw [heq]
      exact List.length_pos.2 hne
    · rw [if_neg h1] at ha
      by_cases h2 : ((eventFold s inp).2 && s.currentSurf.isSome) = true
      · rw [if_pos h2] at ha
        by_cases h3 : inp.freshList.isEmpty = true
        · rw [if_pos h3] at ha
          simp at ha
        · rw [if_neg h3] at ha
          have hne : inp.freshList ≠ [] := by
            intro he
            rw [he] at h3
            exact h3 rfl
          have heq := List.mem_singleton.1 ha
          rw [heq]
          exact Nat.mod_lt _ (List.length_pos.2 hne)
      · rw [if_neg h2] at ha
        simp at ha
  · intro hsome hforced hne
    have hnone : s.currentSurf.isNone = false := by
      cases hcur : s.currentSurf with
      | none => rw [hcur] at hsome; simp at hsome
      | some a => rfl
    have hpos : 0 < inp.freshList.length := by
      cases hl : inp.freshList with
      | nil => rw [hl] at hne; simp at hne
      | cons b t => simp [hl]
    constructor
    · simp only [tick]
      rw [hnone, hforced, hsome, hne]
      simp
    · simp only [tick]
      rw [hnone, hforced, hsome, hne]
      simp only [Bool.false_and, Bool.and_self, Bool.not_false]
      norm_num
      exact Nat.mod_lt _ hpos
  · intro hcur himg
    by_cases hb1 : (s.currentSurf.isNone && !inp.freshList.isEmpty) = true
    · exfalso
      rcases Bool.and_eq_true_iff.1 hb1 with ⟨_, hb12⟩
      simp only [tick, if_pos hb1] at himg
      rw [himg] at hb12
      simp at hb12
    · have hsome0 : s.currentSurf.isSome = false := by
        rw [hcur]
        rfl
      simp only [tick, if_neg hb1]
      rw [hsome0]
      simp [hcur, renderFrame]

/-- C7, witness for `render_loop_cursor_valid`: a "previous" command on a
two-image playlist from index 0 accesses index 1, in bounds. -/
theorem render_loop_cursor_valid_witness :
    ((["a.jpg", "b.jpg"], 1) ∈
      (tick (⟨["a.jpg", "b.jpg"], 0, some "x"⟩ : TickState String)
        ⟨[NavCmd.prev], ["a.jpg", "b.jpg"], false, fun _ => some "y"⟩).2) ∧
    ((["a.jpg", "b.jpg"], 1) : List String × Nat).2 <
      ((["a.jpg", "b.jpg"], 1) : List String × Nat).1.length ∧
    ((⟨["a.jpg", "b.jpg"], 0, some "x"⟩ : TickState String).currentSurf.isSome = true) ∧
    ((eventFold (⟨["a.jpg", "b.jpg"], 0, some "x"⟩ : TickState String)
        ⟨[NavCmd.prev], ["a.jpg", "b.jpg"], false, fun _ => some "y"⟩).2 = true) ∧
    ((["a.jpg", "b.jpg"] : List String).isEmpty = false) ∧
    ((tick (⟨["a.jpg", "b.jpg"], 0, some "x"⟩ : TickState String)
        ⟨[NavCmd.prev], ["a.jpg", "b.jpg"], false, fun _ => some "y"⟩).1.index =
      ((eventFold (⟨["a.jpg", "b.jpg"], 0, some "x"⟩ : TickState String)
        ⟨[NavCmd.prev], ["a.jpg", "b.jpg"], false, fun _ => some "y"⟩).1 + 1) %
        (["a.jpg", "b.jpg"] : List String).length ∧
     (tick (⟨["a.jpg", "b.jpg"], 0, some "x"⟩ : TickState String)
        ⟨[NavCmd.prev], ["a.jpg", "b.jpg"], false, fun _ => some "y"⟩).1.index <
       (["a.jpg", "b.jpg"] : List String).length) :=
  ⟨by decide,
   (render_loop_cursor_valid (⟨["a.jpg", "b.jpg"], 0, some "x"⟩ : TickState String)
     ⟨[NavCmd.prev], ["a.jpg", "b.jpg"], false, fun _ => some "y"⟩).1
     (["a.jpg", "b.jpg"], 1) (by decide),
   rfl, by decide, by decide,
   (render_loop_cursor_valid (⟨["a.jpg", "b.jpg"], 0, some "x"⟩ : TickState String)
     ⟨[NavCmd.prev], ["a.jpg", "b.jpg"], false, fun _ => some "y"⟩).2.1
     rfl (by decide) (by decide)⟩

end PhotoFrame
